import Mathlib

/-!
Verification of the bounded-concurrency enrichment pipeline of
src/arvix/paper_translate.py.

The Python module is embedded shallowly:

* JSON values (what json.loads produces for a JSONL line) are the
  inductive type Json; a decoded record (a Python dict) is an
  association list of string keys and Json values with dict.get /
  dict-assignment semantics (dictGet? / dictSet).
* The network is an oracle: each remote attempt is described by a
  RemoteOutcome value (the HTTP status and body, a timeout, or an
  exception), so the client functions translate_title and
  translate_summary become pure functions of their text input and
  the oracle value.  Their observable effects (returned value,
  number of remote attempts actually issued, lines printed) are
  collected in a CallEffect record; an uncaught Python exception is
  an Except.error.
* asyncio.gather collecting results by original index is modelled by
  writing each task's result into a slot array indexed by the task's
  position, in an arbitrary completion order (gatherSlots/runGather).
* The asyncio.Semaphore bounding concurrency is modelled by a labelled
  transition system GateStep over the per-record task phases.
-/

/-- JSON values as decoded by json.loads (numbers restricted to
integers, which suffices for every claim considered). -/
inductive Json where
  | null : Json
  | bool (b : Bool) : Json
  | num (n : Int) : Json
  | str (s : String) : Json
  | arr (xs : List Json) : Json
  | obj (fields : List (String × Json)) : Json

/-- A decoded JSONL record: a Python dict as an insertion-ordered
association list (keys unique in any dict produced by json.loads). -/
def Record := List (String × Json)

/-- Python dict lookup returning an Option (first binding wins). -/
def dictGet? : Record → String → Option Json
  | [], _ => none
  | (k, v) :: rest, key => if k = key then some v else dictGet? rest key

/-- Python dict.get with a default value. -/
def dictGet (r : Record) (key : String) (dflt : Json) : Json :=
  (dictGet? r key).getD dflt

/-- Python dict assignment d[key] = v: update the existing binding in
place (keeping its position), else append a new binding. -/
def dictSet : Record → String → Json → Record
  | [], key, v => [(key, v)]
  | (k, w) :: rest, key, v =>
      if k = key then (key, v) :: rest else (k, w) :: dictSet rest key v

/-- The characters removed by Python str.strip() for ASCII text
(the claims only involve ASCII whitespace). -/
def pyIsSpace (c : Char) : Bool :=
  c = ' ' || c = '\t' || c = '\n' || c = '\r' || c = '\x0b' || c = '\x0c'

/-- The test `not s or not s.strip()` on a Python string: true exactly
when the string is empty or consists only of whitespace. -/
def pyBlank (s : String) : Bool :=
  s.toList.all pyIsSpace

/-- Python truthiness of a JSON value, as used by `if not title`. -/
def pyTruthy : Json → Bool
  | .null => false
  | .bool b => b
  | .num n => n != 0
  | .str s => s != ""
  | .arr xs => !xs.isEmpty
  | .obj fs => !fs.isEmpty

/-- Observable effects of one client-call invocation: the value it
returns, the number of remote attempts it issued, and the lines it
printed. -/
structure CallEffect (α : Type) where
  result : α
  calls : Nat
  log : List String

/-- Oracle describing what the single remote attempt of a client call
would experience.  In the ok case, content is the string found at
result.choices[0].message.content of the 200 response, and parsed is
the outcome of json.loads(content) (used only by the structured
summary call); the raise case covers every other exception the try
block catches (connection errors, a missing path in the response
JSON, and so on). -/
inductive RemoteOutcome where
  | ok (content : String) (parsed : Except String Json)
  | httpError (status : Nat) (body : String)
  | timeout
  | raise (msg : String)

/-- translate_title of paper_translate.py (lines 81-118), as a function
of the raw title value taken from the record and the network oracle.
An Except.error models an uncaught exception: a truthy non-string
title reaches title.strip() before the try block and raises
AttributeError. -/
def translate_title (title : Json) (outcome : RemoteOutcome) :
    Except String (CallEffect String) :=
  if !pyTruthy title then .ok ⟨"", 0, []⟩
  else match title with
  | .str s =>
    if pyBlank s then .ok ⟨"", 0, []⟩
    else match outcome with
    | .ok content _ => .ok ⟨content, 1, []⟩
    | .httpError st body =>
        .ok ⟨"翻译失败: 状态码 " ++ toString st, 1,
          ["API请求错误: 状态码 " ++ toString st ++ ", 响应: " ++ body]⟩
    | .timeout => .ok ⟨"翻译失败: 请求超时", 1, ["API请求超时"]⟩
    | .raise msg =>
        .ok ⟨"翻译失败: " ++ msg, 1, ["翻译过程中发生未知错误: " ++ msg]⟩
  | _ => .error "AttributeError"

/-- translate_summary of paper_translate.py (lines 16-78).  On a 200
response the code returns json.loads of the message content unchanged
(a Json value); every failure path returns a failure-tagged string, so
the result type is Json.  As in translate_title, a truthy non-string
summary raises before the try block. -/
def translate_summary (summary : Json) (outcome : RemoteOutcome) :
    Except String (CallEffect Json) :=
  if !pyTruthy summary then .ok ⟨.str "", 0, []⟩
  else match summary with
  | .str s =>
    if pyBlank s then .ok ⟨.str "", 0, []⟩
    else match outcome with
    | .ok _ (.ok j) => .ok ⟨j, 1, []⟩
    | .ok _ (.error e) =>
        .ok ⟨.str ("翻译失败: " ++ e), 1, ["翻译过程中发生未知错误: " ++ e]⟩
    | .httpError st body =>
        .ok ⟨.str ("翻译失败: 状态码 " ++ toString st), 1,
          ["API请求错误: 状态码 " ++ toString st ++ ", 响应: " ++ body]⟩
    | .timeout => .ok ⟨.str "翻译失败: 请求超时", 1, ["API请求超时"]⟩
    | .raise msg =>
        .ok ⟨.str ("翻译失败: " ++ msg), 1, ["翻译过程中发生未知错误: " ++ msg]⟩
  | _ => .error "AttributeError"

/-- translate_paper_record of paper_translate.py (lines 121-138): read
title and summary with dict.get defaults, run both client calls (the
oracle supplies each call's outcome), then assign the two derived
fields onto the record.  An exception escaping either call propagates
through asyncio.gather and out of the record task. -/
def translate_paper_record (ot os : RemoteOutcome) (paper : Record) :
    Except String (Record × Nat × List String) :=
  match translate_title (dictGet paper "title" (.str "")) ot,
        translate_summary (dictGet paper "summary" (.str "")) os with
  | .ok et, .ok es =>
      .ok (dictSet (dictSet paper "title_zh" (.str et.result)) "AI" es.result,
        et.calls + es.calls, et.log ++ es.log)
  | .error e, _ => .error e
  | .ok _, .error e => .error e

/-- Sequencing of a Python list comprehension over fallible elements:
the comprehension raises at the first failing element, so the whole
thing is the list of values or the first error. -/
def sequenceExcept {α : Type} : List (Except String α) → Except String (List α)
  | [] => .ok []
  | .ok a :: rest => (sequenceExcept rest).map (a :: ·)
  | .error e :: _ => .error e

/-- Writing completed task results into the slot array by original
index: the completion order lists task indices in the order their
results arrive, and each arrival stores task j's value at slot j. -/
def gatherSlots {α : Type} (f : Nat → α) :
    List Nat → List (Option α) → List (Option α)
  | [], slots => slots
  | j :: rest, slots => gatherSlots f rest (slots.set j (some (f j)))

/-- Reading the slot array out once every task has settled; none means
some slot never received a result (impossible when the completion
order covers every index). -/
def collectSlots {α : Type} : List (Option α) → Option (List α)
  | [] => some []
  | none :: _ => none
  | some a :: rest => (collectSlots rest).map (a :: ·)

/-- The index-collecting gather of the orchestrator (tqdm gathers via
as_completed and sorts results by original index): n tasks, task i
computing f i, results arriving in the given completion order. -/
def runGather {α : Type} (f : Nat → α) (n : Nat) (order : List Nat) :
    Option (List α) :=
  collectSlots (gatherSlots f order (List.replicate n none))

/-- Observable outcome of one whole batch run: the record sequence
written to the output file (none when no file is written), everything
printed, and the total number of remote attempts issued. -/
structure BatchResult where
  written : Option (List Record)
  log : List String
  calls : Nat

/-- MAX_CONCURRENT_REQUESTS of paper_translate.py (line 13). -/
def MAX_CONCURRENT_REQUESTS : Nat := 10

/-- translate_jsonl_file of paper_translate.py (lines 141-170).
Inputs are oracles for the effects the function performs: apiKey is
what os.getenv returns, file is the list of lines of the input file
(none when opening raises FileNotFoundError), each line given as its
json.loads outcome; omega gives each record task the outcomes of its
two remote calls, and order is the completion order of the gathered
tasks.  The result is Except.error when an exception escapes the
batch (a record task raising propagates through gather). -/
def translate_jsonl_file (apiKey : Option String)
    (file : Option (List (Except String Record)))
    (omega : Nat → RemoteOutcome × RemoteOutcome) (order : List Nat) :
    Except String BatchResult :=
  match apiKey with
  | none => .ok ⟨none, ["错误: 请设置环境变量 DEEPSEEK_API_KEY"], 0⟩
  | some key =>
  if key = "" then .ok ⟨none, ["错误: 请设置环境变量 DEEPSEEK_API_KEY"], 0⟩
  else match file with
  | none => .ok ⟨none, ["错误: 输入文件未找到"], 0⟩
  | some lines =>
  match sequenceExcept lines with
  | .error e => .ok ⟨none, ["错误: 解析JSONL文件失败 " ++ e], 0⟩
  | .ok papers =>
  match runGather
      (fun i => translate_paper_record (omega i).1 (omega i).2 (papers.getD i []))
      papers.length order with
  | none => .error "gather incomplete"
  | some results =>
  match sequenceExcept results with
  | .error e => .error e
  | .ok outs =>
      .ok ⟨some (outs.map (·.1)),
        outs.foldr (fun o acc => o.2.2 ++ acc) [],
        outs.foldr (fun o acc => o.2.1 + acc) 0⟩

/-- Phase of one record task with respect to the concurrency gate:
pending before the async with semaphore entry; running once the
permit is held, with flags recording which of the two gathered remote
calls has resolved (either successfully or with a caught failure);
done after the async with block exits and the permit is back. -/
inductive Phase where
  | pending : Phase
  | running (titleDone summaryDone : Bool) : Phase
  | done : Phase
deriving DecidableEq

/-- Scheduler state of a batch run: the semaphore's free-permit count
and the phase of every record task. -/
structure GateState where
  sem : Nat
  tasks : List Phase
deriving DecidableEq

/-- One cooperative scheduling step of the batch, following the shape
of translate_paper_record (lines 125-138): a pending task may enter
the async with block only when a permit is free; each held task's two
remote calls resolve in any interleaving, a resolution never touching
the semaphore; the task exits and releases its permit exactly when
both calls have resolved, whatever their outcomes were. -/
inductive GateStep : GateState → GateState → Prop where
  | start (sem : Nat) (tasks : List Phase) (i : Nat)
      (h : tasks[i]? = some .pending) (hs : 0 < sem) :
      GateStep ⟨sem, tasks⟩ ⟨sem - 1, tasks.set i (.running false false)⟩
  | resolveTitle (sem : Nat) (tasks : List Phase) (i : Nat) (sd : Bool)
      (h : tasks[i]? = some (.running false sd)) :
      GateStep ⟨sem, tasks⟩ ⟨sem, tasks.set i (.running true sd)⟩
  | resolveSummary (sem : Nat) (tasks : List Phase) (i : Nat) (td : Bool)
      (h : tasks[i]? = some (.running td false)) :
      GateStep ⟨sem, tasks⟩ ⟨sem, tasks.set i (.running td true)⟩
  | finish (sem : Nat) (tasks : List Phase) (i : Nat)
      (h : tasks[i]? = some (.running true true)) :
      GateStep ⟨sem, tasks⟩ ⟨sem + 1, tasks.set i .done⟩

/-- Initial scheduler state: Semaphore(n) freshly created (line 160)
and one task per record, none started yet (line 162). -/
def gateInit (n numTasks : Nat) : GateState :=
  ⟨n, List.replicate numTasks .pending⟩

/-- Whether a task currently holds a permit. -/
def holdsPermit : Phase → Bool
  | .running _ _ => true
  | _ => false

/-- Number of tasks that have acquired and not yet released a permit. -/
def holding (s : GateState) : Nat :=
  s.tasks.countP holdsPermit

/-- States a batch run can reach from the initial state. -/
def GateReachable (init s : GateState) : Prop :=
  Relation.ReflTransGen GateStep init s

/-! Helper lemmas about the gather-by-index model. -/

theorem gatherSlots_length {α : Type} (f : Nat → α) (order : List Nat)
    (slots : List (Option α)) :
    (gatherSlots f order slots).length = slots.length := by
  induction order generalizing slots with
  | nil => rfl
  | cons j rest ih => simp [gatherSlots, ih]

theorem gatherSlots_getElem? {α : Type} (f : Nat → α) (order : List Nat)
    (slots : List (Option α)) (j : Nat) (hj : j < slots.length) :
    (gatherSlots f order slots)[j]? =
      if j ∈ order then some (some (f j)) else slots[j]? := by
  induction order generalizing slots with
  | nil => simp [gatherSlots]
  | cons k rest ih =>
    show (gatherSlots f rest (slots.set k (some (f k))))[j]? = _
    rw [ih _ (by simpa using hj)]
    by_cases hmem : j ∈ rest
    · simp [hmem]
    · by_cases hk : j = k
      · subst hk
        simp [hmem, List.getElem?_set_self hj]
      · simp [hmem, hk, List.getElem?_set_ne (fun h => hk h.symm)]

theorem collectSlots_map_some {α : Type} (l : List α) :
    collectSlots (l.map some) = some l := by
  induction l with
  | nil => rfl
  | cons a rest ih => simp [collectSlots, ih]

theorem runGather_perm {α : Type} (f : Nat → α) (n : Nat) (order : List Nat)
    (h : order.Perm (List.range n)) :
    runGather f n order = some ((List.range n).map f) := by
  have hfill : gatherSlots f order (List.replicate n none) =
      (List.range n).map (fun j => some (f j)) := by
    apply List.ext_get?
    intro j
    simp only [List.get?_eq_getElem?]
    by_cases hj : j < n
    · rw [gatherSlots_getElem? f order _ j (by simpa using hj)]
      have hmem : j ∈ order := by
        rw [h.mem_iff, List.mem_range]
        exact hj
      simp [hmem, List.getElem?_range hj]
    · have h1 : (gatherSlots f order (List.replicate n none))[j]? = none := by
        rw [List.getElem?_eq_none]
        rw [gatherSlots_length]
        simpa using Nat.le_of_not_lt hj
      have h2 : ((List.range n).map (fun j => some (f j)))[j]? = none := by
        rw [List.getElem?_eq_none]
        simpa using Nat.le_of_not_lt hj
      rw [h1, h2]
  have hmap : (List.range n).map (fun j => some (f j)) =
      ((List.range n).map f).map some := by
    rw [List.map_map]
    rfl
  rw [runGather, hfill, hmap, collectSlots_map_some]

theorem sequenceExcept_map_ok {α : Type} (l : List α) :
    sequenceExcept (l.map Except.ok) = .ok l := by
  induction l with
  | nil => rfl
  | cons a rest ih => simp [sequenceExcept, ih, Except.map]

theorem holding_step (s t : GateState) (hstep : GateStep s t) :
    t.sem + holding t = s.sem + holding s ∧ s.sem ≤ t.sem + 1 := by
  cases hstep with
  | start sem tasks i h hs =>
    obtain ⟨hi, hget⟩ := List.getElem?_eq_some_iff.1 h
    have hcount := List.countP_set holdsPermit tasks i (.running false false) hi
    rw [hget] at hcount
    simp only [holding]
    simp [holdsPermit] at hcount ⊢
    omega
  | resolveTitle sem tasks i sd h =>
    obtain ⟨hi, hget⟩ := List.getElem?_eq_some_iff.1 h
    have hbound : 0 < List.countP holdsPermit tasks :=
      List.countP_pos_iff.2 ⟨tasks[i], List.getElem_mem hi, by rw [hget]; rfl⟩
    have hcount := List.countP_set holdsPermit tasks i (.running true sd) hi
    rw [hget] at hcount
    simp only [holding]
    simp [holdsPermit] at hcount
    omega
  | resolveSummary sem tasks i td h =>
    obtain ⟨hi, hget⟩ := List.getElem?_eq_some_iff.1 h
    have hbound : 0 < List.countP holdsPermit tasks :=
      List.countP_pos_iff.2 ⟨tasks[i], List.getElem_mem hi, by rw [hget]; rfl⟩
    have hcount := List.countP_set holdsPermit tasks i (.running td true) hi
    rw [hget] at hcount
    simp only [holding]
    simp [holdsPermit] at hcount
    omega
  | finish sem tasks i h =>
    obtain ⟨hi, hget⟩ := List.getElem?_eq_some_iff.1 h
    have hbound : 0 < List.countP holdsPermit tasks :=
      List.countP_pos_iff.2 ⟨tasks[i], List.getElem_mem hi, by rw [hget]; rfl⟩
    have hcount := List.countP_set holdsPermit tasks i .done hi
    rw [hget] at hcount
    simp only [holding]
    simp [holdsPermit] at hcount
    omega

theorem gate_invariant (n m : Nat) (s : GateState)
    (h : GateReachable (gateInit n m) s) :
    s.sem + holding s = n := by
  induction h with
  | refl => simp [gateInit, holding, List.countP_replicate, holdsPermit]
  | tail hsteps hstep ih =>
    have := holding_step _ _ hstep
    omega

theorem sequenceExcept_first_error {α : Type} (pre : List α) (e : String)
    (post : List (Except String α)) :
    sequenceExcept (pre.map Except.ok ++ .error e :: post) = .error e := by
  induction pre with
  | nil => rfl
  | cons a rest ih => simp [sequenceExcept, ih, Except.map]

theorem translate_jsonl_file_ok (key : String) (hkey : ¬ key = "")
    (papers : List Record) (omega : Nat → RemoteOutcome × RemoteOutcome)
    (order : List Nat) (hperm : order.Perm (List.range papers.length))
    (out : Nat → Record × Nat × List String)
    (hout : ∀ i, i < papers.length →
      translate_paper_record (omega i).1 (omega i).2 (papers.getD i []) = .ok (out i)) :
    translate_jsonl_file (some key) (some (papers.map Except.ok)) omega order =
      .ok ⟨some ((List.range papers.length).map (fun i => (out i).1)),
        (List.range papers.length).foldr (fun i acc => (out i).2.2 ++ acc) [],
        (List.range papers.length).foldr (fun i acc => (out i).2.1 + acc) 0⟩ := by
  have htasks : (List.range papers.length).map
      (fun i => translate_paper_record (omega i).1 (omega i).2 (papers.getD i [])) =
      ((List.range papers.length).map out).map Except.ok := by
    rw [List.map_map]
    apply List.map_congr_left
    intro i hi
    rw [List.mem_range] at hi
    exact hout i hi
  simp only [translate_jsonl_file, if_neg hkey, sequenceExcept_map_ok,
    runGather_perm _ _ _ hperm, htasks, sequenceExcept_map_ok]
  rw [List.map_map, List.foldr_map, List.foldr_map]
  rfl

/-! Helper lemmas about Python dict assignment. -/

theorem dictGet?_dictSet (r : Record) (key k : String) (v : Json) :
    dictGet? (dictSet r key v) k = if k = key then some v else dictGet? r k := by
  induction r with
  | nil =>
    by_cases h : k = key
    · subst h
      simp [dictSet, dictGet?]
    · have h' : ¬ key = k := fun hk => h hk.symm
      simp [dictSet, dictGet?, h, h']
  | cons kw rest ih =>
    obtain ⟨k', w⟩ := kw
    simp only [dictSet]
    by_cases h1 : k' = key
    · rw [if_pos h1]
      subst h1
      by_cases hk : k' = k
      · subst hk
        simp [dictGet?]
      · have hk' : ¬ k = k' := fun h => hk h.symm
        simp [dictGet?, hk, hk']
    · rw [if_neg h1]
      by_cases hk : k' = k
      · have h3 : ¬ k = key := fun h => h1 (hk.trans h)
        simp [dictGet?, hk, h3]
      · simp [dictGet?, hk, ih]

theorem mem_keys_dictSet (r : Record) (key k : String) (v : Json) :
    k ∈ (dictSet r key v).map Prod.fst ↔ k = key ∨ k ∈ r.map Prod.fst := by
  induction r with
  | nil => simp [dictSet]
  | cons kw rest ih =>
    obtain ⟨k', w⟩ := kw
    simp only [dictSet]
    by_cases h1 : k' = key
    · rw [if_pos h1]
      subst h1
      simp only [List.map_cons, List.mem_cons]
      tauto
    · rw [if_neg h1]
      simp only [List.map_cons, List.mem_cons]
      rw [ih]
      tauto

theorem keys_dictSet_nodup (r : Record) (key : String) (v : Json)
    (h : (r.map Prod.fst).Nodup) :
    ((dictSet r key v).map Prod.fst).Nodup := by
  induction r with
  | nil => simp [dictSet]
  | cons kw rest ih =>
    obtain ⟨k', w⟩ := kw
    rw [List.map_cons, List.nodup_cons] at h
    simp only [dictSet]
    by_cases h1 : k' = key
    · rw [if_pos h1]
      subst h1
      rw [List.map_cons, List.nodup_cons]
      exact ⟨h.1, h.2⟩
    · rw [if_neg h1]
      rw [List.map_cons, List.nodup_cons]
      constructor
      · rw [mem_keys_dictSet]
        rintro (hkk | hmem)
        · exact h1 hkk
        · exact h.1 hmem
      · exact ih h.2

theorem pyBlank_false_ne (s : String) (h : pyBlank s = false) : ¬ s = "" := by
  intro he
  subst he
  simp [pyBlank] at h

theorem translate_title_str (s : String) (hb : pyBlank s = false)
    (outcome : RemoteOutcome) :
    translate_title (.str s) outcome =
      .ok (match outcome with
        | .ok content _ => ⟨content, 1, []⟩
        | .httpError st body =>
            ⟨"翻译失败: 状态码 " ++ toString st, 1,
              ["API请求错误: 状态码 " ++ toString st ++ ", 响应: " ++ body]⟩
        | .timeout => ⟨"翻译失败: 请求超时", 1, ["API请求超时"]⟩
        | .raise msg =>
            ⟨"翻译失败: " ++ msg, 1, ["翻译过程中发生未知错误: " ++ msg]⟩) := by
  have hne := pyBlank_false_ne s hb
  simp [translate_title, pyTruthy, hne, hb]
  cases outcome <;> rfl

theorem translate_summary_str (s : String) (hb : pyBlank s = false)
    (outcome : RemoteOutcome) :
    translate_summary (.str s) outcome =
      .ok (match outcome with
        | .ok _ (.ok j) => ⟨j, 1, []⟩
        | .ok _ (.error e) =>
            ⟨.str ("翻译失败: " ++ e), 1, ["翻译过程中发生未知错误: " ++ e]⟩
        | .httpError st body =>
            ⟨.str ("翻译失败: 状态码 " ++ toString st), 1,
              ["API请求错误: 状态码 " ++ toString st ++ ", 响应: " ++ body]⟩
        | .timeout => ⟨.str "翻译失败: 请求超时", 1, ["API请求超时"]⟩
        | .raise msg =>
            ⟨.str ("翻译失败: " ++ msg), 1, ["翻译过程中发生未知错误: " ++ msg]⟩) := by
  have hne := pyBlank_false_ne s hb
  simp [translate_summary, pyTruthy, hne, hb]
  cases outcome with
  | ok content parsed => cases parsed <;> rfl
  | httpError st body => rfl
  | timeout => rfl
  | raise msg => rfl

theorem translate_paper_record_shape (ot os : RemoteOutcome) (paper r : Record)
    (c : Nat) (l : List String)
    (h : translate_paper_record ot os paper = .ok (r, c, l)) :
    ∃ t a, r = dictSet (dictSet paper "title_zh" (.str t)) "AI" a := by
  unfold translate_paper_record at h
  cases h1 : translate_title (dictGet paper "title" (.str "")) ot with
  | error e => rw [h1] at h; exact absurd h (by simp)
  | ok et =>
    cases h2 : translate_summary (dictGet paper "summary" (.str "")) os with
    | error e => rw [h1, h2] at h; exact absurd h (by simp)
    | ok es =>
      rw [h1, h2] at h
      simp only [Except.ok.injEq, Prod.mk.injEq] at h
      exact ⟨et.result, es.result, h.1.symm⟩

/-! Claim theorems. -/

/-- C1: for every input sequence of N records processed by the batch
orchestrator (translate_jsonl_file), the output sequence has exactly N
records and the record at output position i is the enrichment of the
record at input position i, regardless of the completion order of the
concurrent per-record tasks (any permutation of the task indices). -/
theorem claim_C1_order_preservation (key : String) (hkey : ¬ key = "")
    (papers : List Record) (omega : Nat → RemoteOutcome × RemoteOutcome)
    (order : List Nat) (hperm : order.Perm (List.range papers.length))
    (out : Nat → Record × Nat × List String)
    (hout : ∀ i, i < papers.length →
      translate_paper_record (omega i).1 (omega i).2 (papers.getD i []) = .ok (out i)) :
    ∃ br : BatchResult,
      translate_jsonl_file (some key) (some (papers.map Except.ok)) omega order =
        .ok br ∧
      ∃ outs : List Record, br.written = some outs ∧
        outs.length = papers.length ∧
        ∀ i, i < papers.length → outs[i]? = some ((out i).1) := by
  refine ⟨_, translate_jsonl_file_ok key hkey papers omega order hperm out hout,
    _, rfl, by simp, ?_⟩
  intro i hi
  rw [List.getElem?_map, List.getElem?_range hi]
  rfl

theorem claim_C1_witness :
    ∃ br : BatchResult,
      translate_jsonl_file (some "k")
        (some (([[("title", Json.str "A")], []] : List Record).map Except.ok))
        (fun _ => (.timeout, .timeout)) [1, 0] = .ok br ∧
      ∃ outs : List Record, br.written = some outs ∧
        outs.length = ([[("title", Json.str "A")], []] : List Record).length ∧
        ∀ i, i < ([[("title", Json.str "A")], []] : List Record).length →
          outs[i]? = some ((fun i : Nat => if i = 0 then
            (([("title", Json.str "A"), ("title_zh", Json.str "翻译失败: 请求超时"),
               ("AI", Json.str "")] : Record), 1, ["API请求超时"])
            else (([("title_zh", Json.str ""), ("AI", Json.str "")] : Record),
              0, ([] : List String))) i).1 := by
  apply claim_C1_order_preservation "k" (by decide)
    [[("title", Json.str "A")], []] (fun _ => (.timeout, .timeout)) [1, 0]
    (List.Perm.swap 0 1 [])
  intro i hi
  simp only [List.length_cons, List.length_nil] at hi
  interval_cases i
  · rfl
  · rfl

/-- C2: in every state reachable during a batch run with the gate
ceiling MAX_CONCURRENT_REQUESTS (10), the number of record tasks that
have acquired and not yet released a permit never exceeds the ceiling;
the free-permit count plus the held-permit count is always exactly the
ceiling, and once every task is done all permits are back, so permits
never leak.  (That each task acquires exactly one permit before its
remote calls and releases it only after both calls resolve, whatever
their outcomes, is the structure of the GateStep relation itself,
taken from the async with semaphore block wrapping the gather of the
two calls.) -/
theorem claim_C2_gate_bound (m : Nat) (s : GateState)
    (h : GateReachable (gateInit MAX_CONCURRENT_REQUESTS m) s) :
    holding s ≤ MAX_CONCURRENT_REQUESTS ∧
    s.sem + holding s = MAX_CONCURRENT_REQUESTS ∧
    ((∀ p ∈ s.tasks, p = Phase.done) → s.sem = MAX_CONCURRENT_REQUESTS) := by
  have hinv := gate_invariant MAX_CONCURRENT_REQUESTS m s h
  refine ⟨by omega, hinv, ?_⟩
  intro hall
  have hz : holding s = 0 := by
    refine List.countP_eq_zero.2 (fun p hp => ?_)
    rw [hall p hp]
    simp [holdsPermit]
  omega

theorem claim_C2_witness :
    holding ⟨9, [Phase.running false false, Phase.pending]⟩ ≤
      MAX_CONCURRENT_REQUESTS ∧
    (9 : Nat) + holding ⟨9, [Phase.running false false, Phase.pending]⟩ =
      MAX_CONCURRENT_REQUESTS ∧
    ((∀ p ∈ [Phase.running false false, Phase.pending], p = Phase.done) →
      (9 : Nat) = MAX_CONCURRENT_REQUESTS) :=
  claim_C2_gate_bound 2 ⟨9, [Phase.running false false, Phase.pending]⟩
    (Relation.ReflTransGen.single
      (GateStep.start 10 (List.replicate 2 .pending) 0 rfl (by omega)))

/-- C8: when the DEEPSEEK_API_KEY environment variable is unset, the
batch run is fatal at startup: the error is reported once, no record
is processed, no remote call is issued, and no output file is written,
whatever the input file and the network would have done. -/
theorem claim_C8_missing_credential (file : Option (List (Except String Record)))
    (omega : Nat → RemoteOutcome × RemoteOutcome) (order : List Nat) :
    translate_jsonl_file none file omega order =
      .ok ⟨none, ["错误: 请设置环境变量 DEEPSEEK_API_KEY"], 0⟩ := rfl

/-- C3: if record k's title-translation call fails (non-200) while its
summary-extraction call succeeds, then record k's enrichment carries
the failure-tagged string (only) in title_zh while AI holds the
successful summary payload, and the enrichment of every other record
is unchanged by record k's failure (two oracles agreeing away from k
enrich every sibling identically). -/
theorem claim_C3_partial_failure (papers : List Record) (k : Nat)
    (tk sk : String)
    (htk : dictGet? (papers.getD k []) "title" = some (.str tk))
    (hsk : dictGet? (papers.getD k []) "summary" = some (.str sk))
    (htb : pyBlank tk = false) (hsb : pyBlank sk = false)
    (st : Nat) (body content : String) (j : Json)
    (omega omega' : Nat → RemoteOutcome × RemoteOutcome)
    (homega : omega k = (.httpError st body, .ok content (.ok j)))
    (hagree : ∀ i, ¬ i = k → omega' i = omega i) :
    (∃ r c l,
      translate_paper_record (omega k).1 (omega k).2 (papers.getD k []) =
        .ok (r, c, l) ∧
      dictGet? r "title_zh" = some (.str ("翻译失败: 状态码 " ++ toString st)) ∧
      dictGet? r "AI" = some j) ∧
    (∀ i, ¬ i = k →
      translate_paper_record (omega' i).1 (omega' i).2 (papers.getD i []) =
      translate_paper_record (omega i).1 (omega i).2 (papers.getD i [])) := by
  constructor
  · rw [homega]
    have h1 := translate_title_str tk htb (.httpError st body)
    have h2 := translate_summary_str sk hsb (.ok content (.ok j))
    refine ⟨dictSet (dictSet (papers.getD k []) "title_zh"
        (.str ("翻译失败: 状态码 " ++ toString st))) "AI" j, 2,
      ["API请求错误: 状态码 " ++ toString st ++ ", 响应: " ++ body], ?_, ?_, ?_⟩
    · simp only [translate_paper_record, dictGet, htk, hsk, Option.getD_some, h1, h2]
      simp
    · rw [dictGet?_dictSet, if_neg (by decide), dictGet?_dictSet, if_pos rfl]
    · rw [dictGet?_dictSet, if_pos rfl]
  · intro i hi
    rw [hagree i hi]

theorem claim_C3_witness :
    (∃ r c l,
      translate_paper_record
        ((fun i : Nat => if i = 0 then
            ((RemoteOutcome.httpError 500 "oops"), (RemoteOutcome.ok "c" (.ok (Json.obj []))))
          else (RemoteOutcome.timeout, RemoteOutcome.timeout)) 0).1
        ((fun i : Nat => if i = 0 then
            ((RemoteOutcome.httpError 500 "oops"), (RemoteOutcome.ok "c" (.ok (Json.obj []))))
          else (RemoteOutcome.timeout, RemoteOutcome.timeout)) 0).2
        (([[("title", Json.str "T"), ("summary", Json.str "S")],
           [("title", Json.str "U"), ("summary", Json.str "V")]] : List Record).getD 0 []) =
        .ok (r, c, l) ∧
      dictGet? r "title_zh" = some (.str ("翻译失败: 状态码 " ++ toString 500)) ∧
      dictGet? r "AI" = some (Json.obj [])) ∧
    (∀ i, ¬ i = 0 →
      translate_paper_record
        ((fun i : Nat => if i = 0 then
            ((RemoteOutcome.httpError 500 "oops"), (RemoteOutcome.ok "c" (.ok (Json.obj []))))
          else (RemoteOutcome.timeout, RemoteOutcome.timeout)) i).1
        ((fun i : Nat => if i = 0 then
            ((RemoteOutcome.httpError 500 "oops"), (RemoteOutcome.ok "c" (.ok (Json.obj []))))
          else (RemoteOutcome.timeout, RemoteOutcome.timeout)) i).2
        (([[("title", Json.str "T"), ("summary", Json.str "S")],
           [("title", Json.str "U"), ("summary", Json.str "V")]] : List Record).getD i []) =
      translate_paper_record
        ((fun i : Nat => if i = 0 then
            ((RemoteOutcome.httpError 500 "oops"), (RemoteOutcome.ok "c" (.ok (Json.obj []))))
          else (RemoteOutcome.timeout, RemoteOutcome.timeout)) i).1
        ((fun i : Nat => if i = 0 then
            ((RemoteOutcome.httpError 500 "oops"), (RemoteOutcome.ok "c" (.ok (Json.obj []))))
          else (RemoteOutcome.timeout, RemoteOutcome.timeout)) i).2
        (([[("title", Json.str "T"), ("summary", Json.str "S")],
           [("title", Json.str "U"), ("summary", Json.str "V")]] : List Record).getD i [])) :=
  claim_C3_partial_failure
    [[("title", Json.str "T"), ("summary", Json.str "S")],
     [("title", Json.str "U"), ("summary", Json.str "V")]] 0 "T" "S"
    rfl rfl rfl rfl 500 "oops" "c" (Json.obj [])
    (fun i => if i = 0 then
        ((RemoteOutcome.httpError 500 "oops"), (RemoteOutcome.ok "c" (.ok (Json.obj []))))
      else (RemoteOutcome.timeout, RemoteOutcome.timeout))
    (fun i => if i = 0 then
        ((RemoteOutcome.httpError 500 "oops"), (RemoteOutcome.ok "c" (.ok (Json.obj []))))
      else (RemoteOutcome.timeout, RemoteOutcome.timeout))
    rfl (fun _ _ => rfl)

/-- C4 counterexample: with a well-formed line before and after a
malformed one, the orchestrator writes no output at all and processes
no record — it does not continue with the remaining well-formed lines
as the claim states. -/
theorem claim_C4_counterexample :
    translate_jsonl_file (some "k")
      (some [Except.ok ([] : Record),
             Except.error "Expecting value: line 2 column 1 (char 0)",
             Except.ok ([] : Record)])
      (fun _ => (.timeout, .timeout)) [0, 1, 2] =
    .ok ⟨none, ["错误: 解析JSONL文件失败 Expecting value: line 2 column 1 (char 0)"], 0⟩ := rfl

/-- C4 amended: when the input file contains a malformed JSON line,
the orchestrator reports the first parse error once (the error message
carries the parser's line/column context) and aborts the whole batch:
no record is enriched, no remote call is issued and no output file is
written, regardless of how many well-formed lines surround it. -/
theorem claim_C4_abort_on_bad_line (key : String) (hkey : ¬ key = "")
    (pre : List Record) (e : String) (post : List (Except String Record))
    (omega : Nat → RemoteOutcome × RemoteOutcome) (order : List Nat) :
    translate_jsonl_file (some key)
      (some (pre.map Except.ok ++ .error e :: post)) omega order =
      .ok ⟨none, ["错误: 解析JSONL文件失败 " ++ e], 0⟩ := by
  simp only [translate_jsonl_file, if_neg hkey, sequenceExcept_first_error]

theorem claim_C4_witness :
    translate_jsonl_file (some "k")
      (some (([[("title", Json.str "A")]] : List Record).map Except.ok ++
        .error "bad" :: [Except.ok ([] : Record)]))
      (fun _ => (.timeout, .timeout)) [0, 1, 2] =
      .ok ⟨none, ["错误: 解析JSONL文件失败 " ++ "bad"], 0⟩ :=
  claim_C4_abort_on_bad_line "k" (by decide) [[("title", Json.str "A")]] "bad"
    [Except.ok ([] : Record)] (fun _ => (.timeout, .timeout)) [0, 1, 2]

/-- C5 counterexample: on a successful (HTTP 200) structured call
whose payload lacks four of the five schema keys, translate_summary
returns the parsed object unchanged; the missing key motivation is
absent from the result rather than defaulting to the empty string. -/
theorem claim_C5_counterexample :
    translate_summary (.str "s") (.ok "raw" (.ok (Json.obj [("task", .str "a")]))) =
      .ok ⟨Json.obj [("task", .str "a")], 1, []⟩ ∧
    dictGet? [("task", Json.str "a")] "motivation" = none := ⟨rfl, rfl⟩

/-- C5 amended: on a successful (HTTP 200) structured call the parsed
JSON content is returned exactly as json.loads produced it, whatever
its shape — keys absent from the remote payload stay absent (no
empty-string defaulting happens in this function, which relies on the
prompt instructing the model to emit all five keys), and no exception
is raised for missing keys; only a content string that fails to parse
as JSON degrades to a failure-tagged string. -/
theorem claim_C5_payload_returned_raw (s content : String)
    (hs : pyBlank s = false) (j : Json) (e : String) :
    translate_summary (.str s) (.ok content (.ok j)) = .ok ⟨j, 1, []⟩ ∧
    translate_summary (.str s) (.ok content (.error e)) =
      .ok ⟨.str ("翻译失败: " ++ e), 1, ["翻译过程中发生未知错误: " ++ e]⟩ :=
  ⟨translate_summary_str s hs (.ok content (.ok j)),
   translate_summary_str s hs (.ok content (.error e))⟩

theorem claim_C5_witness :
    translate_summary (.str "s") (.ok "c" (.ok (Json.obj []))) =
      .ok ⟨Json.obj [], 1, []⟩ ∧
    translate_summary (.str "s") (.ok "c" (.error "x")) =
      .ok ⟨.str ("翻译失败: " ++ "x"), 1, ["翻译过程中发生未知错误: " ++ "x"]⟩ :=
  claim_C5_payload_returned_raw "s" "c" rfl (Json.obj []) "x"

/-- C6 counterexample: two non-200 transport outcomes with the same
status but different response bodies produce byte-identical return
values, so the returned failure value cannot carry any snippet of the
response body (the body reaches only the printed log line). -/
theorem claim_C6_counterexample :
    translate_title (.str "t") (.httpError 500 "first body") =
      .ok ⟨"翻译失败: 状态码 500", 1, ["API请求错误: 状态码 500, 响应: first body"]⟩ ∧
    translate_title (.str "t") (.httpError 500 "second body") =
      .ok ⟨"翻译失败: 状态码 500", 1, ["API请求错误: 状态码 500, 响应: second body"]⟩ := ⟨rfl, rfl⟩

/-- C6 amended: on a non-200 transport status both client calls return
a failure-tagged string carrying the status code only; the status code
together with the response body is printed to the log, and exactly one
remote attempt is made (no retry). -/
theorem claim_C6_failure_value (s : String) (hs : pyBlank s = false)
    (st : Nat) (body : String) :
    translate_title (.str s) (.httpError st body) =
      .ok ⟨"翻译失败: 状态码 " ++ toString st, 1,
        ["API请求错误: 状态码 " ++ toString st ++ ", 响应: " ++ body]⟩ ∧
    translate_summary (.str s) (.httpError st body) =
      .ok ⟨.str ("翻译失败: 状态码 " ++ toString st), 1,
        ["API请求错误: 状态码 " ++ toString st ++ ", 响应: " ++ body]⟩ :=
  ⟨translate_title_str s hs (.httpError st body),
   translate_summary_str s hs (.httpError st body)⟩

theorem claim_C6_witness :
    translate_title (.str "t") (.httpError 404 "nf") =
      .ok ⟨"翻译失败: 状态码 " ++ toString 404, 1,
        ["API请求错误: 状态码 " ++ toString 404 ++ ", 响应: " ++ "nf"]⟩ ∧
    translate_summary (.str "t") (.httpError 404 "nf") =
      .ok ⟨.str ("翻译失败: 状态码 " ++ toString 404), 1,
        ["API请求错误: 状态码 " ++ toString 404 ++ ", 响应: " ++ "nf"]⟩ :=
  claim_C6_failure_value "t" rfl 404 "nf"

/-- C7: an empty or whitespace-only title or summary short-circuits:
the call returns the empty success payload (the empty string, not a
failure-tagged value) and issues zero remote calls, whatever the
network would have answered. -/
theorem claim_C7_blank_short_circuit (s : String) (hs : pyBlank s = true)
    (o1 o2 : RemoteOutcome) :
    translate_title (.str s) o1 = .ok ⟨"", 0, []⟩ ∧
    translate_summary (.str s) o2 = .ok ⟨.str "", 0, []⟩ := by
  by_cases he : s = ""
  · subst he
    exact ⟨rfl, rfl⟩
  · constructor
    · simp [translate_title, pyTruthy, he, hs]
    · simp [translate_summary, pyTruthy, he, hs]

theorem claim_C7_witness :
    translate_title (.str "  ") .timeout = .ok ⟨"", 0, []⟩ ∧
    translate_summary (.str "  ") (.httpError 500 "b") = .ok ⟨.str "", 0, []⟩ :=
  claim_C7_blank_short_circuit "  " rfl .timeout (.httpError 500 "b")

/-- C9: enrichment writes exactly the two derived fields title_zh and
AI and leaves every other field of the record unchanged; keys stay
unduplicated; and re-running enrichment on an already-enriched record
again leaves every pass-through field equal to the original record's,
with title_zh and AI overwritten (present with the new run's values). -/
theorem claim_C9_frame (ot os ot2 os2 : RemoteOutcome) (paper r r2 : Record)
    (c c2 : Nat) (l l2 : List String)
    (h1 : translate_paper_record ot os paper = .ok (r, c, l))
    (h2 : translate_paper_record ot2 os2 r = .ok (r2, c2, l2)) :
    (∀ k, ¬ k = "title_zh" → ¬ k = "AI" → dictGet? r k = dictGet? paper k) ∧
    ((paper.map Prod.fst).Nodup → (r.map Prod.fst).Nodup) ∧
    (∀ k, ¬ k = "title_zh" → ¬ k = "AI" → dictGet? r2 k = dictGet? paper k) ∧
    ((paper.map Prod.fst).Nodup → (r2.map Prod.fst).Nodup) ∧
    (∃ t, dictGet? r2 "title_zh" = some (.str t)) ∧
    (∃ a, dictGet? r2 "AI" = some a) := by
  obtain ⟨t1, a1, hr⟩ := translate_paper_record_shape ot os paper r c l h1
  obtain ⟨t2, a2, hr2⟩ := translate_paper_record_shape ot2 os2 r r2 c2 l2 h2
  subst hr2
  subst hr
  have frame1 : ∀ k, ¬ k = "title_zh" → ¬ k = "AI" →
      dictGet? (dictSet (dictSet paper "title_zh" (.str t1)) "AI" a1) k =
        dictGet? paper k := by
    intro k hk1 hk2
    rw [dictGet?_dictSet, if_neg hk2, dictGet?_dictSet, if_neg hk1]
  refine ⟨frame1, ?_, ?_, ?_, ?_, ?_⟩
  · intro h
    exact keys_dictSet_nodup _ _ _ (keys_dictSet_nodup _ _ _ h)
  · intro k hk1 hk2
    rw [dictGet?_dictSet, if_neg hk2, dictGet?_dictSet, if_neg hk1]
    exact frame1 k hk1 hk2
  · intro h
    exact keys_dictSet_nodup _ _ _ (keys_dictSet_nodup _ _ _
      (keys_dictSet_nodup _ _ _ (keys_dictSet_nodup _ _ _ h)))
  · exact ⟨t2, by rw [dictGet?_dictSet, if_neg (by decide), dictGet?_dictSet, if_pos rfl]⟩
  · exact ⟨a2, by rw [dictGet?_dictSet, if_pos rfl]⟩

theorem claim_C9_witness :
    dictGet? [("id", Json.str "1"), ("title", Json.str "T"),
        ("summary", Json.str "S"), ("title_zh", Json.str "翻译失败: 请求超时"),
        ("AI", Json.str "翻译失败: 请求超时")] "id" =
      dictGet? [("id", Json.str "1"), ("title", Json.str "T"),
        ("summary", Json.str "S")] "id" :=
  (claim_C9_frame .timeout .timeout .timeout .timeout
    [("id", Json.str "1"), ("title", Json.str "T"), ("summary", Json.str "S")]
    [("id", Json.str "1"), ("title", Json.str "T"), ("summary", Json.str "S"),
     ("title_zh", Json.str "翻译失败: 请求超时"), ("AI", Json.str "翻译失败: 请求超时")]
    [("id", Json.str "1"), ("title", Json.str "T"), ("summary", Json.str "S"),
     ("title_zh", Json.str "翻译失败: 请求超时"), ("AI", Json.str "翻译失败: 请求超时")]
    2 2 ["API请求超时", "API请求超时"] ["API请求超时", "API请求超时"]
    rfl rfl).2.2.1 "id" (by decide) (by decide)

/-- C10 counterexample: a record whose title value is a truthy
non-string (the JSON number 5) makes translate_paper_record raise
(AttributeError from title.strip(), outside the try block), so
enrichment is not total over arbitrary record dictionaries. -/
theorem claim_C10_counterexample :
    translate_paper_record .timeout .timeout [("title", Json.num 5)] =
      .error "AttributeError" := rfl

/-- C10 amended: if an input record lacks the title or summary key,
enrichment does not raise: each missing field is read as the empty
string, the corresponding output field (title_zh or AI) is set to the
empty string, and zero remote calls are issued.  Totality holds for
records whose present title/summary values are strings (or falsy
values); a truthy non-string value there raises AttributeError, which
propagates out of the record task. -/
theorem claim_C10_missing_fields (ot os : RemoteOutcome) (paper : Record)
    (ht : dictGet? paper "title" = none) (hs : dictGet? paper "summary" = none) :
    translate_paper_record ot os paper =
      .ok (dictSet (dictSet paper "title_zh" (.str "")) "AI" (.str ""), 0, []) ∧
    dictGet? (dictSet (dictSet paper "title_zh" (.str "")) "AI" (.str "")) "title_zh" =
      some (.str "") ∧
    dictGet? (dictSet (dictSet paper "title_zh" (.str "")) "AI" (.str "")) "AI" =
      some (.str "") := by
  refine ⟨?_, ?_, ?_⟩
  · simp only [translate_paper_record, dictGet, ht, hs, Option.getD_none]
    rfl
  · rw [dictGet?_dictSet, if_neg (by decide), dictGet?_dictSet, if_pos rfl]
  · rw [dictGet?_dictSet, if_pos rfl]

theorem claim_C10_witness :
    translate_paper_record .timeout .timeout [("id", Json.str "1")] =
      .ok (dictSet (dictSet [("id", Json.str "1")] "title_zh" (.str "")) "AI" (.str ""),
        0, []) ∧
    dictGet? (dictSet (dictSet [("id", Json.str "1")] "title_zh" (.str "")) "AI"
        (.str "")) "title_zh" = some (.str "") ∧
    dictGet? (dictSet (dictSet [("id", Json.str "1")] "title_zh" (.str "")) "AI"
        (.str "")) "AI" = some (.str "") :=
  claim_C10_missing_fields .timeout .timeout [("id", Json.str "1")] rfl rfl
